import Mathlib

/-!
Verification of the data-access layer and configuration module of a campus
food-delivery bot (source files `config.py` and `database.py`).

The database wrapper is embedded shallowly: the relational state is a record
holding the `users` and `orders` tables as association lists / lists of rows,
SQL values are an inductive `SqlVal` covering NULL, integers, text and
decimals, and each method of the `Database` class becomes a pure function on
that state.  Exceptions raised by the driver are modelled with `Except` /
explicit result pairs; environment access in `config.py` is a function from
variable names to optional strings.  Timestamps produced by the database
clock (`NOW()`) are modelled by an explicit `now : Nat` parameter on
`add_user`; the server-generated UUID primary key of `orders` and the
`created_at` column of `orders` are opaque server-side values not referenced
by any operation of this layer and are not modelled.
-/

namespace DeliveryBot

/-- An SQL value as stored or passed to the driver: NULL, a bigint/integer,
a text string, or a decimal number. -/
inductive SqlVal where
  | null
  | int (i : Int)
  | str (s : String)
  | num (q : Rat)
deriving Repr, DecidableEq

/-- Test for SQL NULL: `v.isNull` is true exactly for NULL. -/
def SqlVal.isNull : SqlVal → Bool
  | .null => true
  | _ => false

/-- A row of the `users` table (columns from `_create_tables`):
`telegram_id BIGINT PRIMARY KEY` is the association-list key; `name TEXT NOT
NULL`; `balance DECIMAL(10,2) DEFAULT 0.00` (nullable); `user_type TEXT`
(nullable); `created_at TIMESTAMPTZ DEFAULT NOW()`. -/
structure UserRow where
  name : String
  balance : Option Rat
  user_type : Option String
  created_at : Nat
deriving Repr, DecidableEq

/-- A row of the `orders` table (columns from `_create_tables`), with the
server-generated `id UUID` and `created_at` not modelled.  Fields are kept
as `SqlVal` so that the nullability constraints of the schema are visible:
in the DDL every descriptive column is `NOT NULL` except `gender`, which
only carries `CHECK (gender IN ('M', 'F'))`. -/
structure OrderRow where
  telegram_id : SqlVal
  order_number : SqlVal
  cafe : SqlVal
  name : SqlVal
  gender : SqlVal
  phone : SqlVal
  time : SqlVal
  food : SqlVal
  place : SqlVal
  total_items : SqlVal
  total_price : SqlVal
  status : SqlVal
deriving Repr, DecidableEq

/-- The data held by the relational store: the `users` table keyed by
`telegram_id` and the `orders` table. -/
structure DBState where
  users : List (Int × UserRow)
  orders : List OrderRow
deriving Repr, DecidableEq

/-- Errors surfaced by the database driver for a rejected statement. -/
inductive DBError where
  | uniqueViolation
  | notNullViolation (col : String)
  | foreignKeyViolation
  | checkViolation (constraint : String)
  | dataError (col : String)
deriving Repr, DecidableEq

/-! ### User methods (`database.py`, lines 78-116) -/

/-- Method `is_user_authorized`: `SELECT 1 FROM users WHERE telegram_id = $1`
followed by `result is not None`. -/
def is_user_authorized (db : DBState) (telegram_id : Int) : Bool :=
  (db.users.lookup telegram_id).isSome

/-- Method `get_user_balance`: `SELECT balance FROM users WHERE telegram_id = $1`;
`fetchval` yields NULL both when no row matches and when the stored balance
is NULL, and the Python code returns `float(balance) if balance else 0.0`,
so a NULL or zero fetch result becomes `0.0`. -/
def get_user_balance (db : DBState) (telegram_id : Int) : Rat :=
  match (db.users.lookup telegram_id).bind (fun r => r.balance) with
  | none => 0
  | some b => if b = 0 then 0 else b

/-- The row-level effect of `UPDATE users SET balance = $1 WHERE
telegram_id = $2` on one table entry: rows whose key matches get the new
balance, all other rows and all other fields are untouched. -/
def setBalance (telegram_id : Int) (new_balance : Rat) (p : Int × UserRow) :
    Int × UserRow :=
  if p.1 = telegram_id then (p.1, { p.2 with balance := some new_balance }) else p

/-- Method `update_user_balance`: `UPDATE users SET balance = $1 WHERE
telegram_id = $2`, applied to every row of the table. -/
def update_user_balance (db : DBState) (telegram_id : Int) (new_balance : Rat) : DBState :=
  { db with users := db.users.map (setBalance telegram_id new_balance) }

/-- Method `add_user`: `INSERT INTO users (telegram_id, name, balance) VALUES
($1, $2, $3)` inside `try`; `UniqueViolationError` (the primary-key clash)
becomes `(False, "User already exists")`, any other exception `e` (modelled
by the `fault` parameter carrying `str(e)`) becomes `(False, str(e))`, and
success returns `(True, "User added successfully")`.  `user_type` is not in
the column list so it is NULL; `created_at` defaults to the database clock
`now`. -/
def add_user (db : DBState) (telegram_id : Int) (name : String) (initial_balance : Rat)
    (now : Nat) (fault : Option String) : DBState × Bool × String :=
  match fault with
  | some msg => (db, false, msg)
  | none =>
    if (db.users.lookup telegram_id).isSome then
      (db, false, "User already exists")
    else
      ({ db with users := db.users ++ [(telegram_id, ⟨name, some initial_balance, none, now⟩)] },
       true, "User added successfully")

/-! ### Order-number formatting (`database.py`, lines 120-124)

`get_next_order_number` runs `SELECT COUNT(*) FROM orders` and returns the
Python f-string interpolating `count + 1` under format specification
`06d` after the text `ORD-`: the decimal representation of
`count + 1`, left-padded with the character `0` to a minimum width of 6. -/

/-- Decimal digits of `n`, most significant first, by structural recursion
on a fuel bound (any `fuel > n` suffices). -/
def decDigitsAux : Nat → Nat → List Char
  | 0, _ => []
  | fuel + 1, n =>
    if n < 10 then [Nat.digitChar n]
    else decDigitsAux fuel (n / 10) ++ [Nat.digitChar (n % 10)]

/-- Decimal digits of `n`, most significant first (`0` is written `"0"`). -/
def decDigits (n : Nat) : List Char :=
  decDigitsAux (n + 1) n

/-- The Python format specification `{:06d}` applied to a natural number:
its decimal digits left-padded with `0` to a minimum width of 6. -/
def pyFormat06 (n : Nat) : String :=
  ⟨List.replicate (6 - (decDigits n).length) '0' ++ decDigits n⟩

/-- Method `get_next_order_number`: the f-string of `count + 1` under format
specification `06d`, where `count` is the
number of rows of `orders`. -/
def get_next_order_number (db : DBState) : String :=
  "ORD-" ++ pyFormat06 (db.orders.length + 1)

/-- Value of a string of decimal digit characters (the reading-back
function used to state what number a formatted order number denotes). -/
def charsVal (l : List Char) : Nat :=
  l.foldl (fun a c => a * 10 + (c.toNat - 48)) 0

/-! ### Order insertion (`database.py`, lines 126-146) and the `orders`
schema constraints (`_create_tables`, lines 46-63) -/

/-- Column type `BIGINT` / `INTEGER` accepts NULL or an integer. -/
def tyBigint : SqlVal → Bool
  | .null => true
  | .int _ => true
  | _ => false

/-- Column type `TEXT` accepts NULL or a string. -/
def tyText : SqlVal → Bool
  | .null => true
  | .str _ => true
  | _ => false

/-- Column type `CHAR(1)` accepts NULL or a one-character string. -/
def tyChar1 : SqlVal → Bool
  | .null => true
  | .str s => s.length == 1
  | _ => false

/-- Column type `DECIMAL(10,2)` accepts NULL, a decimal or an integer. -/
def tyDecimal : SqlVal → Bool
  | .null => true
  | .num _ => true
  | .int _ => true
  | _ => false

/-- The DDL constraint `CHECK (gender IN ('M', 'F'))`.  Following SQL
semantics a NULL `gender` passes the check (the predicate is unknown, not
false); the DDL puts no `NOT NULL` on this column. -/
def genderCheckOk : SqlVal → Bool
  | .null => true
  | .str s => s == "M" || s == "F"
  | _ => false

/-- The foreign key `telegram_id BIGINT NOT NULL REFERENCES
users(telegram_id)`: the value must be an integer naming an existing user. -/
def fkUserExists (users : List (Int × UserRow)) : SqlVal → Bool
  | .int i => (users.lookup i).isSome
  | _ => false

/-- The `INSERT INTO orders (...)` statement issued by `create_order`,
checked against the schema of `_create_tables`: column types, the
`NOT NULL` constraints (every inserted column except `gender`), the gender
`CHECK`, the foreign key on `telegram_id` and the `UNIQUE` constraint on
`order_number`.  `status` is absent from the column list and takes its
DDL default `pending`. -/
def insertOrder (db : DBState)
    (tid onum cafe nm gender phone tm food place items price : SqlVal) :
    Except DBError DBState :=
  if !(tyBigint tid && tyText onum && tyText cafe && tyText nm && tyChar1 gender &&
       tyText phone && tyText tm && tyText food && tyText place &&
       tyBigint items && tyDecimal price) then
    .error (.dataError "orders")
  else if tid.isNull then .error (.notNullViolation "telegram_id")
  else if onum.isNull then .error (.notNullViolation "order_number")
  else if cafe.isNull then .error (.notNullViolation "cafe")
  else if nm.isNull then .error (.notNullViolation "name")
  else if phone.isNull then .error (.notNullViolation "phone")
  else if tm.isNull then .error (.notNullViolation "time")
  else if food.isNull then .error (.notNullViolation "food")
  else if place.isNull then .error (.notNullViolation "place")
  else if items.isNull then .error (.notNullViolation "total_items")
  else if price.isNull then .error (.notNullViolation "total_price")
  else if !genderCheckOk gender then .error (.checkViolation "orders_gender_check")
  else if !fkUserExists db.users tid then .error .foreignKeyViolation
  else if db.orders.any (fun r => r.order_number == onum) then .error .uniqueViolation
  else
    .ok { db with
          orders := db.orders ++
            [⟨tid, onum, cafe, nm, gender, phone, tm, food, place, items, price,
              .str "pending"⟩] }

/-- An error escaping `create_order`: a Python `KeyError` from reading a
missing key of `order_data`, or a database error from the insert. -/
inductive OrderError where
  | keyError (key : String)
  | dbError (e : DBError)
deriving Repr, DecidableEq

/-- The eleven keys `create_order` reads from `order_data`, in the order the
source reads them. -/
def requiredOrderKeys : List String :=
  ["user_telegram_id", "order_number", "cafe", "name", "gender", "phone",
   "time", "food", "place", "total_items", "total_price"]

/-- Method `create_order(order_data)`: the eleven dictionary subscripts are
evaluated (left to right, raising `KeyError` on the first missing key)
before the insert statement runs; on success the state gains one order row.
The returned state is unchanged on any error. -/
def create_order (db : DBState) (order_data : List (String × SqlVal)) :
    DBState × Except OrderError Unit :=
  match order_data.lookup "user_telegram_id" with
  | none => (db, .error (.keyError "user_telegram_id"))
  | some tid =>
  match order_data.lookup "order_number" with
  | none => (db, .error (.keyError "order_number"))
  | some onum =>
  match order_data.lookup "cafe" with
  | none => (db, .error (.keyError "cafe"))
  | some cafe =>
  match order_data.lookup "name" with
  | none => (db, .error (.keyError "name"))
  | some nm =>
  match order_data.lookup "gender" with
  | none => (db, .error (.keyError "gender"))
  | some gender =>
  match order_data.lookup "phone" with
  | none => (db, .error (.keyError "phone"))
  | some phone =>
  match order_data.lookup "time" with
  | none => (db, .error (.keyError "time"))
  | some tm =>
  match order_data.lookup "food" with
  | none => (db, .error (.keyError "food"))
  | some food =>
  match order_data.lookup "place" with
  | none => (db, .error (.keyError "place"))
  | some place =>
  match order_data.lookup "total_items" with
  | none => (db, .error (.keyError "total_items"))
  | some items =>
  match order_data.lookup "total_price" with
  | none => (db, .error (.keyError "total_price"))
  | some price =>
  match insertOrder db tid onum cafe nm gender phone tm food place items price with
  | .error e => (db, .error (.dbError e))
  | .ok db2 => (db2, .ok ())

/-! ### Configuration (`config.py`) -/

/-- The process environment: a map from variable names to optional string
values (`os.getenv`). -/
def Env : Type := String → Option String

/-- The `CHANNELS` dictionary of `config.py`: each of the five fixed logical
channel names is bound to `os.getenv` of its environment variable — the raw
optional string, with no numeric parsing. -/
def CHANNELS (env : Env) : List (String × Option String) :=
  [("female_main", env "CHANNEL_FEMALE_MAIN"),
   ("male_main", env "CHANNEL_MALE_MAIN"),
   ("female_tecno", env "CHANNEL_FEMALE_TECNO"),
   ("male_tecno", env "CHANNEL_MALE_TECNO"),
   ("agri", env "CHANNEL_AGRI")]

/-- The pairs (logical channel name, environment variable) defining
`CHANNELS`. -/
def channelEnvVars : List (String × String) :=
  [("female_main", "CHANNEL_FEMALE_MAIN"),
   ("male_main", "CHANNEL_MALE_MAIN"),
   ("female_tecno", "CHANNEL_FEMALE_TECNO"),
   ("male_tecno", "CHANNEL_MALE_TECNO"),
   ("agri", "CHANNEL_AGRI")]

/-- Python string split on commas, character by character: every comma is a
separator, so `""` splits to `[""]` and adjacent commas produce empty
entries. -/
def splitCommaAux : List Char → List Char → List String
  | [], cur => [String.mk cur.reverse]
  | c :: rest, cur =>
    if c = ',' then String.mk cur.reverse :: splitCommaAux rest []
    else splitCommaAux rest (c :: cur)

/-- Python split of `s` on commas. -/
def pySplitComma (s : String) : List String :=
  splitCommaAux s.data []

/-- ASCII whitespace as stripped by Python `str.strip()`. -/
def isSpaceChar (c : Char) : Bool :=
  c = ' ' || c = '\t' || c = '\n' || c = '\r' || c = '\x0b' || c = '\x0c'

/-- Python `s.strip()`: drop leading and trailing whitespace. -/
def pyStrip (s : String) : String :=
  String.mk (((s.data.dropWhile isSpaceChar).reverse.dropWhile isSpaceChar).reverse)

/-- Decimal value of a digit character, when it is one. -/
def digitVal (c : Char) : Option Nat :=
  if c.isDigit then some (c.toNat - 48) else none

/-- Parse a nonempty all-digit character list as a natural number. -/
def parseNatList (l : List Char) : Option Nat :=
  if l.isEmpty then none
  else l.foldl (fun acc c => acc.bind (fun a => (digitVal c).map (fun d => a * 10 + d)))
    (some 0)

/-- Python `int(s)` on an already-stripped string: an optional sign followed
by decimal digits; anything else raises `ValueError`, modelled as `none`. -/
def pyInt (s : String) : Option Int :=
  match s.data with
  | '-' :: rest => (parseNatList rest).map (fun n => -(n : Int))
  | '+' :: rest => (parseNatList rest).map (fun n => (n : Int))
  | l => (parseNatList l).map (fun n => (n : Int))

/-- Whether an entry of the `CHANNELS` dictionary is a numeric channel
identifier: a string value present and parseable as an integer. -/
def isNumericChannelId : Option String → Bool
  | none => false
  | some s => (pyInt s).isSome

/-- The claim that every one of the five logical channels is mapped to a
numeric channel identifier, as a decidable check on the loaded mapping. -/
def channelsAllNumeric (env : Env) : Bool :=
  (CHANNELS env).all (fun p => isNumericChannelId p.2)

/-- Constant `ADMIN_IDS` of `config.py`, the list comprehension that reads
the variable ADMIN_IDS (defaulting to the empty string), splits it on commas,
strips each entry and keeps the nonempty ones.
The comma-split entries whose strip is empty are dropped; each kept entry is
parsed by `int`, a `ValueError` (unparseable entry) being modelled as
`Except.error` carrying the offending entry. -/
def ADMIN_IDS (env : Env) : Except String (List Int) :=
  ((pySplitComma ((env "ADMIN_IDS").getD "")).filter
      (fun s => !(pyStrip s).isEmpty)).mapM
    (fun s => match pyInt (pyStrip s) with
      | some i => Except.ok i
      | none => Except.error s)

/-! ### Schema bootstrap (`_create_tables`, `database.py` lines 28-69) -/

/-- One column of a `CREATE TABLE` statement. -/
structure ColumnDef where
  colName : String
  sqlType : String
  notNull : Bool
  defaultVal : Option String
deriving Repr, DecidableEq

/-- A table definition as written in the DDL. -/
structure TableDef where
  columns : List ColumnDef
  primaryKey : Option String
  uniqueCols : List String
  checks : List String
  foreignKeys : List (String × String × String)
deriving Repr, DecidableEq

/-- An index definition as written in the DDL. -/
structure IndexDef where
  idxName : String
  onTable : String
  cols : List String
deriving Repr, DecidableEq

/-- The `users` table of `_create_tables`. -/
def usersTableDef : TableDef :=
  { columns :=
      [⟨"telegram_id", "BIGINT", false, none⟩,
       ⟨"name", "TEXT", true, none⟩,
       ⟨"balance", "DECIMAL(10,2)", false, some "0.00"⟩,
       ⟨"user_type", "TEXT", false, none⟩,
       ⟨"created_at", "TIMESTAMPTZ", false, some "NOW()"⟩],
    primaryKey := some "telegram_id",
    uniqueCols := [],
    checks := [],
    foreignKeys := [] }

/-- The `orders` table of `_create_tables`. -/
def ordersTableDef : TableDef :=
  { columns :=
      [⟨"id", "UUID", false, some "uuid_generate_v4()"⟩,
       ⟨"telegram_id", "BIGINT", true, none⟩,
       ⟨"order_number", "TEXT", true, none⟩,
       ⟨"cafe", "TEXT", true, none⟩,
       ⟨"name", "TEXT", true, none⟩,
       ⟨"gender", "CHAR(1)", false, none⟩,
       ⟨"phone", "TEXT", true, none⟩,
       ⟨"time", "TEXT", true, none⟩,
       ⟨"food", "TEXT", true, none⟩,
       ⟨"place", "TEXT", true, none⟩,
       ⟨"total_items", "INTEGER", true, none⟩,
       ⟨"total_price", "DECIMAL(10,2)", true, none⟩,
       ⟨"status", "TEXT", false, some "pending"⟩,
       ⟨"created_at", "TIMESTAMPTZ", false, some "NOW()"⟩],
    primaryKey := some "id",
    uniqueCols := ["order_number"],
    checks := ["gender IN (M, F)"],
    foreignKeys := [("telegram_id", "users", "telegram_id")] }

/-- The composite index of `_create_tables`. -/
def ordersIndexDef : IndexDef :=
  ⟨"idx_orders_telegram_status", "orders", ["telegram_id", "status"]⟩

/-- The schema catalog: which of the four objects created by the bootstrap
exist, and with what definition. -/
structure PgCatalog where
  uuidExt : Bool
  usersTable : Option TableDef
  ordersTable : Option TableDef
  ordersIndex : Option IndexDef
deriving Repr, DecidableEq

/-- The full database-server state seen by the bootstrap: the catalog plus
the stored rows. -/
structure PgState where
  catalog : PgCatalog
  userRows : List (Int × UserRow)
  orderRows : List OrderRow
deriving Repr, DecidableEq

/-- Semantics of `CREATE ... IF NOT EXISTS`: keep the existing object if it is
present, create it with the given definition otherwise. -/
def createIfAbsent {α : Type} (cur : Option α) (d : α) : Option α :=
  match cur with
  | some t => some t
  | none => some d

/-- Method `_create_tables`: the uuid-ossp `CREATE EXTENSION IF NOT EXISTS`, then the
two `CREATE TABLE IF NOT EXISTS` statements, then
`CREATE INDEX IF NOT EXISTS`.  Stored rows are never touched. -/
def _create_tables (s : PgState) : PgState :=
  { s with
    catalog :=
      { uuidExt := true,
        usersTable := createIfAbsent s.catalog.usersTable usersTableDef,
        ordersTable := createIfAbsent s.catalog.ordersTable ordersTableDef,
        ordersIndex := createIfAbsent s.catalog.ordersIndex ordersIndexDef } }

/-! ### Pool lifecycle (`database.py` lines 7-8 and 71-74) -/

/-- The asyncpg connection pool, reduced to the one observable this layer
uses: whether it has been closed. -/
structure Pool where
  closed : Bool
deriving Repr, DecidableEq

/-- The `Database` wrapper object: `self.pool` is `None` until the
initialization method runs. -/
structure BotDatabase where
  pool : Option Pool
deriving Repr, DecidableEq

/-- Method `close` checks the pool for truthiness before closing — a no-op when the pool
was never created, otherwise the pool is closed. -/
def close (d : BotDatabase) : BotDatabase :=
  match d.pool with
  | none => d
  | some p => { d with pool := some { p with closed := true } }

/-! ### Concrete sample states used to exercise the theorems -/

/-- A user row as created by `add_user(id, "Alice", 10.0)` at clock 0. -/
def aliceRow : UserRow := ⟨"Alice", some 10, none, 0⟩

/-- A database holding exactly the user `1 ↦ aliceRow` and no orders. -/
def dbOneUser : DBState := ⟨[(1, aliceRow)], []⟩

/-- An order row with every column NULL (used only as a stored-state
sample). -/
def blankOrder : OrderRow :=
  ⟨.null, .null, .null, .null, .null, .null, .null, .null, .null, .null, .null, .null⟩

/-- The order row inserted by the C6 counterexample: a fully populated
order whose `gender` is NULL. -/
def nullGenderOrder : OrderRow :=
  ⟨.int 1, .str "ORD-000001", .str "Cafe", .str "Bob", .null, .str "0912",
   .str "12:00", .str "Pizza", .str "Dorm", .int 2, .num 13.3, .str "pending"⟩

/-- The same fully populated order with gender `M` and its DDL-default
status. -/
def mGenderOrder : OrderRow :=
  ⟨.int 1, .str "ORD-000001", .str "Cafe", .str "Bob", .str "M", .str "0912",
   .str "12:00", .str "Pizza", .str "Dorm", .int 2, .num 13.3, .str "pending"⟩

/-- A complete `order_data` dictionary for `create_order`, keyed as the
source reads it (`user_telegram_id`, not `telegram_id`). -/
def fullOrderData : List (String × SqlVal) :=
  [("user_telegram_id", .int 1), ("order_number", .str "ORD-000001"),
   ("cafe", .str "Cafe"), ("name", .str "Bob"), ("gender", .str "M"),
   ("phone", .str "0912"), ("time", .str "12:00"), ("food", .str "Pizza"),
   ("place", .str "Dorm"), ("total_items", .int 2), ("total_price", .num 13.3)]

/-! ## Helper lemmas -/

/-- A digit below 10 rendered by `Nat.digitChar` reads back as itself. -/
theorem digitChar_toNat_sub : ∀ d < 10, (Nat.digitChar d).toNat - 48 = d := by
  decide

/-- Applying `Nat.digitChar` to a digit below 10 gives a digit character. -/
theorem digitChar_isDigit : ∀ d < 10, (Nat.digitChar d).isDigit = true := by
  decide

/-- Folding the decimal-reading step over the digits of `n` appends `n` to
the accumulator positionally. -/
theorem decDigitsAux_foldl : ∀ (fuel n a : Nat), n < fuel →
    List.foldl (fun a c => a * 10 + (c.toNat - 48)) a (decDigitsAux fuel n) =
      a * 10 ^ (decDigitsAux fuel n).length + n := by
  intro fuel
  induction fuel with
  | zero => intro n a h; omega
  | succ fuel ih =>
    intro n a h
    by_cases h10 : n < 10
    · simp only [decDigitsAux, if_pos h10, List.foldl_cons, List.foldl_nil,
        List.length_singleton, pow_one]
      rw [digitChar_toNat_sub n h10]
    · have hpos : 0 < n := by omega
      have hrec : n / 10 < fuel := by
        have := Nat.div_lt_self hpos (by omega : 1 < 10)
        omega
      simp only [decDigitsAux, if_neg h10, List.foldl_append, List.foldl_cons,
        List.foldl_nil, List.length_append, List.length_singleton]
      rw [ih (n / 10) a hrec, digitChar_toNat_sub (n % 10) (Nat.mod_lt n (by omega))]
      have hdm : 10 * (n / 10) + n % 10 = n := Nat.div_add_mod n 10
      calc (a * 10 ^ (decDigitsAux fuel (n / 10)).length + n / 10) * 10 + n % 10
          = a * (10 ^ (decDigitsAux fuel (n / 10)).length * 10) +
              (10 * (n / 10) + n % 10) := by ring
        _ = a * 10 ^ ((decDigitsAux fuel (n / 10)).length + 1) + n := by
              rw [hdm, pow_succ]

/-- The decimal representation of `n < 10 ^ k` has at most `k` digits. -/
theorem decDigitsAux_length_le : ∀ (fuel n k : Nat), n < fuel → n < 10 ^ k → 1 ≤ k →
    (decDigitsAux fuel n).length ≤ k := by
  intro fuel
  induction fuel with
  | zero => intro n k h; omega
  | succ fuel ih =>
    intro n k h hk h1
    by_cases h10 : n < 10
    · simpa [decDigitsAux, h10] using h1
    · have hrec : n / 10 < fuel := by
        have := Nat.div_lt_self (by omega : 0 < n) (by omega : 1 < 10)
        omega
      have hk2 : 2 ≤ k := by
        by_contra hcon
        have hk1 : k = 1 := by omega
        rw [hk1, pow_one] at hk
        omega
      have hpow : 10 * 10 ^ (k - 1) = 10 ^ k := by
        rw [← pow_succ']
        congr 1
        omega
      have hdiv : n / 10 < 10 ^ (k - 1) := by
        apply Nat.div_lt_of_lt_mul
        omega
      have := ih (n / 10) (k - 1) hrec hdiv (by omega)
      simp only [decDigitsAux, if_neg h10, List.length_append, List.length_singleton]
      omega

/-- Every character produced by `decDigitsAux` is a digit character. -/
theorem decDigitsAux_isDigit : ∀ (fuel n : Nat), ∀ c ∈ decDigitsAux fuel n,
    c.isDigit = true := by
  intro fuel
  induction fuel with
  | zero => intro n c hc; simp [decDigitsAux] at hc
  | succ fuel ih =>
    intro n c hc
    by_cases h10 : n < 10
    · simp only [decDigitsAux, if_pos h10, List.mem_singleton] at hc
      exact hc ▸ digitChar_isDigit n h10
    · simp only [decDigitsAux, if_neg h10, List.mem_append, List.mem_singleton] at hc
      rcases hc with hc | hc
      · exact ih (n / 10) c hc
      · exact hc ▸ digitChar_isDigit (n % 10) (Nat.mod_lt n (by omega))

/-- Leading zero characters do not change the value read back from a digit
string. -/
theorem foldl_replicate_zero (k : Nat) :
    List.foldl (fun a c => a * 10 + (c.toNat - 48)) 0 (List.replicate k '0') = 0 := by
  induction k with
  | zero => rfl
  | succ k ih => simpa [List.replicate_succ] using ih

/-- Looking up a key absent from an association list finds a freshly
appended binding for that key. -/
theorem lookup_append_single {α β : Type} [BEq α] [LawfulBEq α]
    (l : List (α × β)) (k : α) (v : β) (h : l.lookup k = none) :
    (l ++ [(k, v)]).lookup k = some v := by
  induction l with
  | nil => simp [List.lookup]
  | cons p t ih =>
    rcases p with ⟨a, b⟩
    cases hka : k == a
    · simp only [List.lookup, hka] at h
      simpa [List.cons_append, List.lookup, hka] using ih h
    · simp [List.lookup, hka] at h

/-! ## Claim theorems -/

/-- C1: `get_next_order_number()` returns `"ORD-"` followed by the current
total count of rows in `orders` plus one, zero-padded to 6 digits: the
string starts with `ORD-`, the remainder consists of at least six digit
characters (exactly six while the count stays below 999999) whose decimal
reading is `count + 1`; with zero orders it is `"ORD-000001"` and with one
order `"ORD-000002"`. -/
theorem c1_order_number_format (db : DBState) :
    (get_next_order_number db).data.take 4 = ['O', 'R', 'D', '-'] ∧
    charsVal ((get_next_order_number db).data.drop 4) = db.orders.length + 1 ∧
    6 ≤ ((get_next_order_number db).data.drop 4).length ∧
    (∀ c ∈ (get_next_order_number db).data.drop 4, c.isDigit = true) ∧
    (db.orders.length + 1 < 10 ^ 6 → ((get_next_order_number db).data.drop 4).length = 6) ∧
    (db.orders.length = 0 → get_next_order_number db = "ORD-000001") ∧
    (db.orders.length = 1 → get_next_order_number db = "ORD-000002") := by
  have hdata : (get_next_order_number db).data =
      'O' :: 'R' :: 'D' :: '-' ::
        (List.replicate (6 - (decDigits (db.orders.length + 1)).length) '0' ++
          decDigits (db.orders.length + 1)) := rfl
  have hdrop : (get_next_order_number db).data.drop 4 =
      List.replicate (6 - (decDigits (db.orders.length + 1)).length) '0' ++
        decDigits (db.orders.length + 1) := by
    rw [hdata]
    rfl
  have hlen : (decDigits (db.orders.length + 1)).length ≥ 1 := by
    unfold decDigits decDigitsAux
    by_cases h10 : db.orders.length + 1 < 10 <;> simp [h10]
  refine ⟨by rw [hdata]; rfl, ?_, ?_, ?_, ?_, ?_, ?_⟩
  · rw [hdrop]
    unfold charsVal
    rw [List.foldl_append, foldl_replicate_zero]
    have := decDigitsAux_foldl (db.orders.length + 2) (db.orders.length + 1) 0 (by omega)
    simpa [decDigits] using this
  · rw [hdrop]
    simp only [List.length_append, List.length_replicate]
    omega
  · intro c hc
    rw [hdrop] at hc
    rcases List.mem_append.mp hc with hc | hc
    · rw [List.eq_of_mem_replicate hc]
      decide
    · exact decDigitsAux_isDigit _ _ c hc
  · intro hm
    have hle : (decDigits (db.orders.length + 1)).length ≤ 6 := by
      unfold decDigits
      exact decDigitsAux_length_le _ _ 6 (by omega) hm (by omega)
    rw [hdrop]
    simp only [List.length_append, List.length_replicate]
    omega
  · intro h0
    show "ORD-" ++ pyFormat06 (db.orders.length + 1) = "ORD-000001"
    rw [h0]
    rfl
  · intro h1
    show "ORD-" ++ pyFormat06 (db.orders.length + 1) = "ORD-000002"
    rw [h1]
    rfl

/-- Witness for C1 at concrete states: zero orders and one order. -/
theorem c1_order_number_format_checks :
    get_next_order_number ⟨[], []⟩ = "ORD-000001" ∧
    get_next_order_number ⟨[], [blankOrder]⟩ = "ORD-000002" ∧
    ((get_next_order_number ⟨[], []⟩).data.drop 4).length = 6 ∧
    ('0').isDigit = true :=
  ⟨(c1_order_number_format ⟨[], []⟩).2.2.2.2.2.1 rfl,
   (c1_order_number_format ⟨[], [blankOrder]⟩).2.2.2.2.2.2 rfl,
   (c1_order_number_format ⟨[], []⟩).2.2.2.2.1 (by norm_num),
   (c1_order_number_format ⟨[], []⟩).2.2.2.1 '0' (by decide)⟩

/-- C2: `add_user` never propagates an exception — it is a total function
into `(state, success, message)` triples — and the result is exactly
`(False, "User already exists")` on a `telegram_id` uniqueness violation,
`(False, str(e))` for any other driver exception `e`, and
`(True, "User added successfully")` on a successful insert. -/
theorem c2_add_user_errors (db : DBState) (tid : Int) (nm : String) (b : Rat)
    (now : Nat) (fault : Option String) :
    (∀ m, fault = some m → add_user db tid nm b now fault = (db, false, m)) ∧
    (fault = none → (db.users.lookup tid).isSome = true →
      add_user db tid nm b now fault = (db, false, "User already exists")) ∧
    (fault = none → db.users.lookup tid = none →
      (add_user db tid nm b now fault).2 = (true, "User added successfully")) ∧
    ((add_user db tid nm b now fault).2.1 = true →
      (add_user db tid nm b now fault).2.2 = "User added successfully") := by
  refine ⟨?_, ?_, ?_, ?_⟩
  · intro m hm
    simp [add_user, hm]
  · intro hf hsome
    simp [add_user, hf, hsome]
  · intro hf hnone
    simp [add_user, hf, hnone]
  · cases fault with
    | some m => simp [add_user]
    | none =>
      by_cases hsome : (db.users.lookup tid).isSome <;> simp [add_user, hsome]

/-- Witness for C2: the three outcomes at concrete inputs. -/
theorem c2_add_user_errors_checks :
    add_user dbOneUser 2 "Bob" 0 0 (some "network down") =
      (dbOneUser, false, "network down") ∧
    add_user dbOneUser 1 "Alice" 5 0 none = (dbOneUser, false, "User already exists") ∧
    (add_user ⟨[], []⟩ 1 "Alice" 10 0 none).2 = (true, "User added successfully") :=
  ⟨(c2_add_user_errors dbOneUser 2 "Bob" 0 0 (some "network down")).1 "network down" rfl,
   (c2_add_user_errors dbOneUser 1 "Alice" 5 0 none).2.1 rfl rfl,
   (c2_add_user_errors ⟨[], []⟩ 1 "Alice" 10 0 none).2.2.1 rfl rfl⟩

/-- C3: for a `telegram_id` with no user row, `is_user_authorized` returns
false and `get_user_balance` returns 0.0.  Both are embedded as pure
functions of the state — they raise nothing and change nothing. -/
theorem c3_missing_user_defaults (db : DBState) (tid : Int)
    (h : db.users.lookup tid = none) :
    is_user_authorized db tid = false ∧ get_user_balance db tid = 0 := by
  constructor
  · simp [is_user_authorized, h]
  · simp [get_user_balance, h]

/-- Witness for C3 on an empty database. -/
theorem c3_missing_user_defaults_checks :
    is_user_authorized ⟨[], []⟩ 5 = false ∧ get_user_balance ⟨[], []⟩ 5 = 0 :=
  c3_missing_user_defaults ⟨[], []⟩ 5 rfl

/-- C4: when `add_user(telegram_id, name, b)` succeeds, `is_user_authorized`
immediately returns true for that id and `get_user_balance` returns exactly
`b`. -/
theorem c4_add_user_roundtrip (db : DBState) (tid : Int) (nm : String) (b : Rat)
    (now : Nat) (db2 : DBState) (msg : String)
    (h : add_user db tid nm b now none = (db2, true, msg)) :
    is_user_authorized db2 tid = true ∧ get_user_balance db2 tid = b := by
  by_cases hsome : (db.users.lookup tid).isSome
  · simp [add_user, hsome] at h
  · have hnone : db.users.lookup tid = none := Option.not_isSome_iff_eq_none.mp hsome
    simp only [add_user, hnone, Option.isSome_none, Bool.false_eq_true, if_false,
      Prod.mk.injEq] at h
    obtain ⟨hdb2, -, -⟩ := h
    have hfind : db2.users.lookup tid = some ⟨nm, some b, none, now⟩ := by
      rw [← hdb2]
      exact lookup_append_single db.users tid _ hnone
    constructor
    · simp [is_user_authorized, hfind]
    · simp only [get_user_balance, hfind, Option.bind_some]
      by_cases hb : b = 0 <;> simp [hb]

/-- Witness for C4: adding Alice with balance 10 to the empty database. -/
theorem c4_add_user_roundtrip_checks :
    is_user_authorized dbOneUser 1 = true ∧ get_user_balance dbOneUser 1 = 10 :=
  c4_add_user_roundtrip ⟨[], []⟩ 1 "Alice" 10 0 dbOneUser "User added successfully" rfl

/-- Evaluating `setBalance` on a row with the matching key. -/
theorem setBalance_hit (tid : Int) (nb : Rat) (r : UserRow) :
    setBalance tid nb (tid, r) = (tid, { r with balance := some nb }) := by
  simp [setBalance]

/-- Evaluating `setBalance` on a row with a different key. -/
theorem setBalance_miss (tid : Int) (nb : Rat) (a : Int) (r : UserRow)
    (h : ¬ a = tid) : setBalance tid nb (a, r) = (a, r) := by
  simp [setBalance, h]

/-- The balance update leaves lookups of every other key unchanged. -/
theorem lookup_setBalance_ne (l : List (Int × UserRow)) (tid k : Int) (nb : Rat)
    (h : k ≠ tid) :
    (l.map (setBalance tid nb)).lookup k = l.lookup k := by
  induction l with
  | nil => rfl
  | cons p t ih =>
    rcases p with ⟨a, r⟩
    rw [List.map_cons]
    by_cases hat : a = tid
    · subst hat
      have hka : (k == a) = false := by simpa using h
      rw [setBalance_hit]
      simp [List.lookup, hka, ih]
    · rw [setBalance_miss tid nb a r hat]
      cases hk : k == a <;> simp [List.lookup, hk, ih]

/-- The balance update rewrites the balance of the looked-up row and
nothing else in it. -/
theorem lookup_setBalance_eq (l : List (Int × UserRow)) (tid : Int) (nb : Rat)
    (row : UserRow) (h : l.lookup tid = some row) :
    (l.map (setBalance tid nb)).lookup tid = some { row with balance := some nb } := by
  induction l with
  | nil => simp [List.lookup] at h
  | cons p t ih =>
    rcases p with ⟨a, r⟩
    rw [List.map_cons]
    by_cases hta : tid = a
    · subst hta
      have hbeq : (tid == tid) = true := by simp
      simp only [List.lookup, hbeq] at h
      injection h with h
      subst h
      rw [setBalance_hit]
      simp [List.lookup, hbeq]
    · have hbeq : (tid == a) = false := by simpa using hta
      have hat : ¬ (a = tid) := fun hh => hta hh.symm
      simp only [List.lookup, hbeq] at h
      rw [setBalance_miss tid nb a r hat]
      simp [List.lookup, hbeq, ih h]

/-- Updating the balance of an absent key is the identity. -/
theorem setBalance_of_none (l : List (Int × UserRow)) (tid : Int) (nb : Rat)
    (h : l.lookup tid = none) :
    l.map (setBalance tid nb) = l := by
  induction l with
  | nil => rfl
  | cons p t ih =>
    rcases p with ⟨a, r⟩
    by_cases hta : tid = a
    · subst hta
      simp [List.lookup] at h
    · have hbeq : (tid == a) = false := by simpa using hta
      have hat : ¬ (a = tid) := fun hh => hta hh.symm
      simp only [List.lookup, hbeq] at h
      rw [List.map_cons, setBalance_miss tid nb a r hat, ih h]

/-- C5: `update_user_balance` overwrites only the balance of the row keyed
`telegram_id`: orders are untouched, lookups of other keys are unchanged,
the looked-up row keeps its `name`, `user_type` and `created_at`, and when
no row has that key the call changes nothing (zero rows affected, no
error). -/
theorem c5_update_balance_frame (db : DBState) (tid : Int) (nb : Rat) :
    (update_user_balance db tid nb).orders = db.orders ∧
    (∀ k, k ≠ tid →
      (update_user_balance db tid nb).users.lookup k = db.users.lookup k) ∧
    (∀ row, db.users.lookup tid = some row →
      (update_user_balance db tid nb).users.lookup tid =
        some { row with balance := some nb }) ∧
    (db.users.lookup tid = none → update_user_balance db tid nb = db) := by
  refine ⟨rfl, ?_, ?_, ?_⟩
  · intro k hk
    exact lookup_setBalance_ne db.users tid k nb hk
  · intro row hrow
    exact lookup_setBalance_eq db.users tid nb row hrow
  · intro hnone
    show { db with users := _ } = db
    rw [setBalance_of_none db.users tid nb hnone]

/-- Witness for C5: updating the stored user, and updating a nonexistent
one. -/
theorem c5_update_balance_frame_checks :
    (update_user_balance dbOneUser 1 25.5).users.lookup 1 =
      some { aliceRow with balance := some 25.5 } ∧
    update_user_balance dbOneUser 2 25.5 = dbOneUser ∧
    (update_user_balance dbOneUser 2 25.5).users.lookup 1 = dbOneUser.users.lookup 1 :=
  ⟨(c5_update_balance_frame dbOneUser 1 25.5).2.2.1 aliceRow rfl,
   (c5_update_balance_frame dbOneUser 2 25.5).2.2.2 rfl,
   (c5_update_balance_frame dbOneUser 2 25.5).2.1 1 (by decide)⟩

/-- Inverting a successful `insertOrder`: the users table is unchanged, the
new row (with its DDL-default status `pending`) is appended, every `NOT
NULL` column of the insert is non-null, and the gender `CHECK` held. -/
theorem insertOrder_ok_inv (db : DBState)
    (tid onum cafe nm gender phone tm food place items price : SqlVal) (db2 : DBState)
    (h : insertOrder db tid onum cafe nm gender phone tm food place items price = .ok db2) :
    db2.users = db.users ∧
    db2.orders = db.orders ++
      [⟨tid, onum, cafe, nm, gender, phone, tm, food, place, items, price,
        .str "pending"⟩] ∧
    onum.isNull = false ∧ cafe.isNull = false ∧ nm.isNull = false ∧
    phone.isNull = false ∧ tm.isNull = false ∧ food.isNull = false ∧
    place.isNull = false ∧ genderCheckOk gender = true := by
  cases hty : (tyBigint tid && tyText onum && tyText cafe && tyText nm && tyChar1 gender &&
      tyText phone && tyText tm && tyText food && tyText place &&
      tyBigint items && tyDecimal price) with
  | false => simp [insertOrder, hty] at h
  | true =>
  cases htid : tid.isNull with
  | true => simp [insertOrder, hty, htid] at h
  | false =>
  cases honum : onum.isNull with
  | true => simp [insertOrder, hty, htid, honum] at h
  | false =>
  cases hcafe : cafe.isNull with
  | true => simp [insertOrder, hty, htid, honum, hcafe] at h
  | false =>
  cases hnm : nm.isNull with
  | true => simp [insertOrder, hty, htid, honum, hcafe, hnm] at h
  | false =>
  cases hphone : phone.isNull with
  | true => simp [insertOrder, hty, htid, honum, hcafe, hnm, hphone] at h
  | false =>
  cases htm : tm.isNull with
  | true => simp [insertOrder, hty, htid, honum, hcafe, hnm, hphone, htm] at h
  | false =>
  cases hfood : food.isNull with
  | true => simp [insertOrder, hty, htid, honum, hcafe, hnm, hphone, htm, hfood] at h
  | false =>
  cases hplace : place.isNull with
  | true => simp [insertOrder, hty, htid, honum, hcafe, hnm, hphone, htm, hfood, hplace] at h
  | false =>
  cases hitems : items.isNull with
  | true =>
    simp [insertOrder, hty, htid, honum, hcafe, hnm, hphone, htm, hfood, hplace, hitems] at h
  | false =>
  cases hprice : price.isNull with
  | true =>
    simp [insertOrder, hty, htid, honum, hcafe, hnm, hphone, htm, hfood, hplace, hitems,
      hprice] at h
  | false =>
  cases hgender : genderCheckOk gender with
  | false =>
    simp [insertOrder, hty, htid, honum, hcafe, hnm, hphone, htm, hfood, hplace, hitems,
      hprice, hgender] at h
  | true =>
  cases hfk : fkUserExists db.users tid with
  | false =>
    simp [insertOrder, hty, htid, honum, hcafe, hnm, hphone, htm, hfood, hplace, hitems,
      hprice, hgender, hfk] at h
  | true =>
  cases huniq : db.orders.any (fun r => r.order_number == onum) with
  | true =>
    simp [insertOrder, hty, htid, honum, hcafe, hnm, hphone, htm, hfood, hplace, hitems,
      hprice, hgender, hfk, huniq] at h
  | false =>
    simp [insertOrder, hty, htid, honum, hcafe, hnm, hphone, htm, hfood, hplace,
      hitems, hprice, hgender, hfk, huniq] at h
    subst h
    exact ⟨rfl, rfl, rfl, rfl, rfl, rfl, rfl, rfl, rfl, rfl⟩

/-- C6 counterexample: a fully populated order whose `gender` is NULL
passes every schema constraint and is stored — the claim that every stored
order has a non-null gender in {M, F} is false, because the DDL omits
`NOT NULL` on `gender` and `CHECK (gender IN ('M','F'))` accepts NULL. -/
theorem c6_null_gender_stored :
    insertOrder dbOneUser (.int 1) (.str "ORD-000001") (.str "Cafe") (.str "Bob")
        .null (.str "0912") (.str "12:00") (.str "Pizza") (.str "Dorm") (.int 2)
        (.num 13.3)
      = .ok ⟨[(1, aliceRow)], [nullGenderOrder]⟩ ∧
    nullGenderOrder.gender = SqlVal.null :=
  ⟨rfl, rfl⟩

/-- C6 (amended): every order row stored by this layer has `cafe`, `food`,
`place`, `time`, `phone` and `name` non-null, and its `gender` is either
NULL or one of `M`, `F` — the NOT NULL part of the original claim does not
extend to `gender`. -/
theorem c6_order_fields (db : DBState)
    (tid onum cafe nm gender phone tm food place items price : SqlVal) (db2 : DBState)
    (h : insertOrder db tid onum cafe nm gender phone tm food place items price = .ok db2) :
    db2.orders = db.orders ++
      [⟨tid, onum, cafe, nm, gender, phone, tm, food, place, items, price,
        .str "pending"⟩] ∧
    cafe.isNull = false ∧ food.isNull = false ∧ place.isNull = false ∧
    tm.isNull = false ∧ phone.isNull = false ∧ nm.isNull = false ∧
    (gender = SqlVal.null ∨ gender = SqlVal.str "M" ∨ gender = SqlVal.str "F") := by
  obtain ⟨-, horders, -, hcafe, hnm, hphone, htm, hfood, hplace, hgender⟩ :=
    insertOrder_ok_inv db tid onum cafe nm gender phone tm food place items price db2 h
  refine ⟨horders, hcafe, hfood, hplace, htm, hphone, hnm, ?_⟩
  rcases gender with _ | i | s | q
  · exact Or.inl rfl
  · simp [genderCheckOk] at hgender
  · have hs : s = "M" ∨ s = "F" := by simpa [genderCheckOk] using hgender
    rcases hs with rfl | rfl
    · exact Or.inr (Or.inl rfl)
    · exact Or.inr (Or.inr rfl)
  · simp [genderCheckOk] at hgender

/-- Witness for the amended C6 at a concrete valid insert with gender M. -/
theorem c6_order_fields_checks :
    (⟨[(1, aliceRow)], [mGenderOrder]⟩ : DBState).orders =
      dbOneUser.orders ++ [mGenderOrder] ∧
    (SqlVal.str "Cafe").isNull = false ∧ (SqlVal.str "Pizza").isNull = false ∧
    (SqlVal.str "Dorm").isNull = false ∧ (SqlVal.str "12:00").isNull = false ∧
    (SqlVal.str "0912").isNull = false ∧ (SqlVal.str "Bob").isNull = false ∧
    (SqlVal.str "M" = SqlVal.null ∨ SqlVal.str "M" = SqlVal.str "M" ∨
      SqlVal.str "M" = SqlVal.str "F") :=
  c6_order_fields dbOneUser (.int 1) (.str "ORD-000001") (.str "Cafe") (.str "Bob")
    (.str "M") (.str "0912") (.str "12:00") (.str "Pizza") (.str "Dorm") (.int 2)
    (.num 13.3) ⟨[(1, aliceRow)], [mGenderOrder]⟩ rfl

/-- C7 counterexample: with channel environment variables unset,
configuration load still succeeds but the channel mapping carries no
numeric identifiers — the values are raw optional strings (`None` here),
never parsed to integers. -/
theorem c7_channels_not_numeric :
    channelsAllNumeric (fun _ => none) = false := rfl

/-- C7 (amended): after configuration load the channel mapping associates
each of the five fixed logical channel names with the raw string value of
its environment variable (absent when the variable is unset, never parsed
to a number), and the admin list is the comma-separated `ADMIN_IDS` value
parsed to integers with empty and whitespace-only entries dropped. -/
theorem c7_config_values (env : Env) :
    (∀ p ∈ channelEnvVars, (CHANNELS env).lookup p.1 = some (env p.2)) ∧
    (env "ADMIN_IDS" = none → ADMIN_IDS env = .ok []) ∧
    ADMIN_IDS (fun v => if v = "ADMIN_IDS" then some " 10, 20,,  ,30 " else none)
      = .ok [10, 20, 30] := by
  refine ⟨?_, ?_, rfl⟩
  · intro p hp
    simp only [channelEnvVars, List.mem_cons, List.not_mem_nil, or_false] at hp
    rcases hp with rfl | rfl | rfl | rfl | rfl <;> rfl
  · intro h
    unfold ADMIN_IDS
    rw [h]
    rfl

/-- Witness for the amended C7 on the empty environment. -/
theorem c7_config_values_checks :
    (CHANNELS (fun _ => none)).lookup "female_main" = some none ∧
    ADMIN_IDS (fun _ => none) = .ok [] :=
  ⟨(c7_config_values (fun _ => none)).1 ("female_main", "CHANNEL_FEMALE_MAIN") (by decide),
   (c7_config_values (fun _ => none)).2.1 rfl⟩

/-- Running `CREATE ... IF NOT EXISTS` twice is the same as once. -/
theorem createIfAbsent_idem {α : Type} (cur : Option α) (d : α) :
    createIfAbsent (createIfAbsent cur d) d = createIfAbsent cur d := by
  cases cur <;> rfl

/-- C8: schema bootstrap is idempotent — running `_create_tables` twice
from any server state leaves exactly the state of running it once, and a
run never touches the stored rows of either table. -/
theorem c8_bootstrap_idempotent (s : PgState) :
    _create_tables (_create_tables s) = _create_tables s ∧
    (_create_tables s).userRows = s.userRows ∧
    (_create_tables s).orderRows = s.orderRows := by
  refine ⟨?_, rfl, rfl⟩
  simp [_create_tables, createIfAbsent_idem]

/-- C9: `close()` is safe in every pool state — a no-op when the pool was
never created, and it closes the pool otherwise. -/
theorem c9_close_safe (d : BotDatabase) :
    (d.pool = none → close d = d) ∧
    (∀ p, d.pool = some p → (close d).pool = some ⟨true⟩) := by
  constructor
  · intro h
    simp [close, h]
  · intro p h
    simp [close, h]

/-- Witness for C9: a wrapper with no pool and one with an open pool. -/
theorem c9_close_safe_checks :
    close ⟨none⟩ = ⟨none⟩ ∧ (close ⟨some ⟨false⟩⟩).pool = some ⟨true⟩ :=
  ⟨(c9_close_safe ⟨none⟩).1 rfl, (c9_close_safe ⟨some ⟨false⟩⟩).2 ⟨false⟩ rfl⟩

/-- C10: `create_order` reads the user identifier from the key
`user_telegram_id` (a dictionary carrying only `telegram_id` fails with
exactly that missing key); whenever any of the eleven required keys is
absent it fails with a missing-key error naming an absent key and leaves
the state unchanged; and on success the `telegram_id` of the appended row is the
value found under `user_telegram_id`. -/
theorem c10_create_order_keys (db : DBState) (od : List (String × SqlVal)) :
    (od.lookup "user_telegram_id" = none →
      create_order db od = (db, .error (.keyError "user_telegram_id"))) ∧
    ((∃ k ∈ requiredOrderKeys, od.lookup k = none) →
      (create_order db od).1 = db ∧
      ∃ k2 ∈ requiredOrderKeys, od.lookup k2 = none ∧
        (create_order db od).2 = .error (.keyError k2)) ∧
    ((create_order db od).2 = .ok () →
      od.lookup "user_telegram_id" =
        ((create_order db od).1.orders.getLast?).map (fun r => r.telegram_id)) := by
  refine ⟨?_, ?_, ?_⟩
  · intro h
    simp [create_order, h]
  · intro hex
    rcases ho1 : od.lookup "user_telegram_id" with _ | v1
    · exact ⟨by simp [create_order, ho1], "user_telegram_id",
        by simp [requiredOrderKeys], ho1, by simp [create_order, ho1]⟩
    rcases ho2 : od.lookup "order_number" with _ | v2
    · exact ⟨by simp [create_order, ho1, ho2], "order_number",
        by simp [requiredOrderKeys], ho2, by simp [create_order, ho1, ho2]⟩
    rcases ho3 : od.lookup "cafe" with _ | v3
    · exact ⟨by simp [create_order, ho1, ho2, ho3], "cafe",
        by simp [requiredOrderKeys], ho3, by simp [create_order, ho1, ho2, ho3]⟩
    rcases ho4 : od.lookup "name" with _ | v4
    · exact ⟨by simp [create_order, ho1, ho2, ho3, ho4], "name",
        by simp [requiredOrderKeys], ho4, by simp [create_order, ho1, ho2, ho3, ho4]⟩
    rcases ho5 : od.lookup "gender" with _ | v5
    · exact ⟨by simp [create_order, ho1, ho2, ho3, ho4, ho5], "gender",
        by simp [requiredOrderKeys], ho5, by simp [create_order, ho1, ho2, ho3, ho4, ho5]⟩
    rcases ho6 : od.lookup "phone" with _ | v6
    · exact ⟨by simp [create_order, ho1, ho2, ho3, ho4, ho5, ho6], "phone",
        by simp [requiredOrderKeys], ho6,
        by simp [create_order, ho1, ho2, ho3, ho4, ho5, ho6]⟩
    rcases ho7 : od.lookup "time" with _ | v7
    · exact ⟨by simp [create_order, ho1, ho2, ho3, ho4, ho5, ho6, ho7], "time",
        by simp [requiredOrderKeys], ho7,
        by simp [create_order, ho1, ho2, ho3, ho4, ho5, ho6, ho7]⟩
    rcases ho8 : od.lookup "food" with _ | v8
    · exact ⟨by simp [create_order, ho1, ho2, ho3, ho4, ho5, ho6, ho7, ho8], "food",
        by simp [requiredOrderKeys], ho8,
        by simp [create_order, ho1, ho2, ho3, ho4, ho5, ho6, ho7, ho8]⟩
    rcases ho9 : od.lookup "place" with _ | v9
    · exact ⟨by simp [create_order, ho1, ho2, ho3, ho4, ho5, ho6, ho7, ho8, ho9], "place",
        by simp [requiredOrderKeys], ho9,
        by simp [create_order, ho1, ho2, ho3, ho4, ho5, ho6, ho7, ho8, ho9]⟩
    rcases ho10 : od.lookup "total_items" with _ | v10
    · exact ⟨by simp [create_order, ho1, ho2, ho3, ho4, ho5, ho6, ho7, ho8, ho9, ho10],
        "total_items", by simp [requiredOrderKeys], ho10,
        by simp [create_order, ho1, ho2, ho3, ho4, ho5, ho6, ho7, ho8, ho9, ho10]⟩
    rcases ho11 : od.lookup "total_price" with _ | v11
    · exact ⟨by simp [create_order, ho1, ho2, ho3, ho4, ho5, ho6, ho7, ho8, ho9, ho10, ho11],
        "total_price", by simp [requiredOrderKeys], ho11,
        by simp [create_order, ho1, ho2, ho3, ho4, ho5, ho6, ho7, ho8, ho9, ho10, ho11]⟩
    exfalso
    rcases hex with ⟨k, hk, hnone⟩
    simp only [requiredOrderKeys, List.mem_cons, List.not_mem_nil, or_false] at hk
    rcases hk with rfl | rfl | rfl | rfl | rfl | rfl | rfl | rfl | rfl | rfl | rfl <;>
      simp_all
  · intro hok
    rcases ho1 : od.lookup "user_telegram_id" with _ | v1
    · simp [create_order, ho1] at hok
    rcases ho2 : od.lookup "order_number" with _ | v2
    · simp [create_order, ho1, ho2] at hok
    rcases ho3 : od.lookup "cafe" with _ | v3
    · simp [create_order, ho1, ho2, ho3] at hok
    rcases ho4 : od.lookup "name" with _ | v4
    · simp [create_order, ho1, ho2, ho3, ho4] at hok
    rcases ho5 : od.lookup "gender" with _ | v5
    · simp [create_order, ho1, ho2, ho3, ho4, ho5] at hok
    rcases ho6 : od.lookup "phone" with _ | v6
    · simp [create_order, ho1, ho2, ho3, ho4, ho5, ho6] at hok
    rcases ho7 : od.lookup "time" with _ | v7
    · simp [create_order, ho1, ho2, ho3, ho4, ho5, ho6, ho7] at hok
    rcases ho8 : od.lookup "food" with _ | v8
    · simp [create_order, ho1, ho2, ho3, ho4, ho5, ho6, ho7, ho8] at hok
    rcases ho9 : od.lookup "place" with _ | v9
    · simp [create_order, ho1, ho2, ho3, ho4, ho5, ho6, ho7, ho8, ho9] at hok
    rcases ho10 : od.lookup "total_items" with _ | v10
    · simp [create_order, ho1, ho2, ho3, ho4, ho5, ho6, ho7, ho8, ho9, ho10] at hok
    rcases ho11 : od.lookup "total_price" with _ | v11
    · simp [create_order, ho1, ho2, ho3, ho4, ho5, ho6, ho7, ho8, ho9, ho10, ho11] at hok
    rcases hins : insertOrder db v1 v2 v3 v4 v5 v6 v7 v8 v9 v10 v11 with e | db2
    · simp [create_order, ho1, ho2, ho3, ho4, ho5, ho6, ho7, ho8, ho9, ho10, ho11,
        hins] at hok
    · have hco : create_order db od = (db2, .ok ()) := by
        simp [create_order, ho1, ho2, ho3, ho4, ho5, ho6, ho7, ho8, ho9, ho10, ho11, hins]
      have hlast :=
        (insertOrder_ok_inv db v1 v2 v3 v4 v5 v6 v7 v8 v9 v10 v11 db2 hins).2.1
      rw [hco]
      simp [hlast, List.getLast?_concat]

/-- Witness for C10: the wrong-key dictionary, the empty dictionary, and a
complete dictionary. -/
theorem c10_create_order_keys_checks :
    create_order ⟨[], []⟩ [("telegram_id", SqlVal.int 1)] =
      (⟨[], []⟩, .error (.keyError "user_telegram_id")) ∧
    ((create_order ⟨[], []⟩ []).1 = (⟨[], []⟩ : DBState) ∧
      ∃ k2 ∈ requiredOrderKeys, (List.lookup k2 ([] : List (String × SqlVal))) = none ∧
        (create_order ⟨[], []⟩ []).2 = .error (.keyError k2)) ∧
    List.lookup "user_telegram_id" fullOrderData =
      ((create_order dbOneUser fullOrderData).1.orders.getLast?).map
        (fun r => r.telegram_id) :=
  ⟨(c10_create_order_keys ⟨[], []⟩ [("telegram_id", SqlVal.int 1)]).1 rfl,
   (c10_create_order_keys ⟨[], []⟩ []).2.1 ⟨"cafe", by decide, rfl⟩,
   (c10_create_order_keys dbOneUser fullOrderData).2.2 rfl⟩

end DeliveryBot
